import Mathlib

/-!
Verification development for the `image-edit` repository: a browser image
editor with three utility modules (file/data-URL codec, canvas resize and
filter) around one generative-image API wrapper, driven by a React
controller.  The definitions below are a shallow embedding of the
TypeScript source; browser/SDK behaviour (FileReader, canvas, the remote
call) is represented by explicit environment/outcome parameters, and JS
numbers are modelled by exact rationals.
-/

namespace ImageEdit

/-! ## JS string primitives -/

/-- JS `String.prototype.split` on a single-character separator. -/
def splitOnChar (sep : Char) : List Char → List (List Char)
  | [] => [[]]
  | c :: cs =>
    let rest := splitOnChar sep cs
    if c = sep then [] :: rest
    else
      match rest with
      | [] => [[c]]
      | r :: rs => (c :: r) :: rs

/-- JS `s.split(sep)[1]`: the segment between the first and second separator,
`none` when the separator does not occur (JS `undefined`). -/
def splitSecond (sep : Char) (s : String) : Option String :=
  (splitOnChar sep s.toList).get? 1 |>.map String.mk

/-- JS truthiness of a string-or-undefined value: `undefined` and `""` are
falsy, every other string is truthy. -/
def strTruthy : Option String → Bool
  | none => false
  | some s => !s.isEmpty

/-- JS `s.startsWith(pre)`. -/
def jsStartsWith (s pre : String) : Bool :=
  pre.toList.isPrefixOf s.toList

/-- Capture group of the first match of `/data:(.*?);/` (the regex in
`dataUrlToGenerativePart`): scanning left to right, at a position where
`"data:"` is a prefix the lazy capture is the span up to the first `';'`
of the remainder; the match at that position succeeds when such a `';'`
exists and the span contains no newline (JS `.` does not match newline),
otherwise scanning resumes one character further. -/
def lazyMimeMatch : List Char → Option String
  | [] => none
  | c :: cs =>
    if "data:".toList.isPrefixOf (c :: cs) then
      let rest := (c :: cs).drop 5
      let seg := rest.takeWhile (fun x => x != ';')
      if seg.length < rest.length && !seg.contains '\n' then some (String.mk seg)
      else lazyMimeMatch cs
    else lazyMimeMatch cs

/-- Capture group of the first match of `/data:([^;]+);/` (the regex in
`handleDownload`): like `lazyMimeMatch` but the class `[^;]+` needs a
non-empty capture and does match newline. -/
def classMimeMatch : List Char → Option String
  | [] => none
  | c :: cs =>
    if "data:".toList.isPrefixOf (c :: cs) then
      let rest := (c :: cs).drop 5
      let seg := rest.takeWhile (fun x => x != ';')
      if decide (seg.length ≠ 0) && decide (seg.length < rest.length) then some (String.mk seg)
      else classMimeMatch cs
    else classMimeMatch cs

/-! ## Image codec utilities (`src/utils/fileUtils.ts`) -/

/-- The `inlineData` payload of a generative `Part`: base64 data plus MIME
type. -/
structure GenerativePart where
  data : String
  mimeType : String
deriving Repr, DecidableEq

/-- Source `dataUrlToGenerativePart`:
`mimeType = dataUrl.match(/data:(.*?);/)?.[1] ?? 'image/png'`,
`base64Data = dataUrl.split(',')[1]`; throws when `base64Data` is falsy,
otherwise returns the part. -/
def dataUrlToGenerativePart (dataUrl : String) : Except String GenerativePart :=
  let mimeType := (lazyMimeMatch dataUrl.toList).getD "image/png"
  let base64Data := splitSecond ',' dataUrl
  if strTruthy base64Data then .ok ⟨base64Data.getD "", mimeType⟩
  else .error "Invalid data URL for conversion."

/-- Source `fileToGenerativePart`, applied to a successful FileReader result
`dataUrl` for a file of declared type `fileType`: resolves with
`dataUrl.split(',')[1]` and the file's type when that segment is truthy,
rejects otherwise. -/
def fileToGenerativePart (dataUrl fileType : String) : Except String GenerativePart :=
  let base64Data := splitSecond ',' dataUrl
  if strTruthy base64Data then .ok ⟨base64Data.getD "", fileType⟩
  else .error "Failed to read file as base64."

/-- Returns `true` on the error constructor of `Except`. -/
def isErr {ε α : Type} : Except ε α → Bool
  | .error _ => true
  | .ok _ => false

/-- The `data` field of a successful codec result, `none` on error. -/
def okData {ε : Type} : Except ε GenerativePart → Option String
  | .ok p => some p.data
  | .error _ => none

/-- The `mimeType` field of a successful codec result, `none` on error. -/
def okMime {ε : Type} : Except ε GenerativePart → Option String
  | .ok p => some p.mimeType
  | .error _ => none

/-! ## Canvas transform utilities (`src/utils/imageUtils.ts`) -/

/-- Width/height pair (JS numbers as exact rationals). -/
structure Dims where
  width : ℚ
  height : ℚ
deriving Repr, DecidableEq

/-- Environment of one off-screen canvas operation: whether the source data
URL decodes (`img.onload` vs `img.onerror`), the decoded image's natural
dimensions, whether `getContext('2d')` yields a context, and the serialized
pixel payload the canvas would produce (abstract). -/
structure CanvasEnv where
  decodes : Bool
  natural : Dims
  ctxAvailable : Bool
  payload : String
deriving Repr, DecidableEq

/-- HTML `canvas.toDataURL(mimeType)`, abstracted: a canvas with no pixels
(zero width or height) serializes to the degenerate `"data:,"`; otherwise
the result is a data URL of the requested MIME type carrying the drawn
pixels. -/
def toDataURL (payload : String) (w h : ℚ) (mimeType : String) : String :=
  if w ≤ 0 ∨ h ≤ 0 then "data:,"
  else "data:" ++ mimeType ++ ";base64," ++ payload

/-- The MIME type `resizeImage`/`applyCanvasFilter` request from
`toDataURL`: `imageUrl.startsWith('data:image/jpeg') ? 'image/jpeg' :
'image/png'`. -/
def preservedMime (imageUrl : String) : String :=
  if jsStartsWith imageUrl "data:image/jpeg" then "image/jpeg" else "image/png"

/-- Source `resizeImage(imageUrl, newWidth, newHeight)`: rejects when the image
fails to load or no 2d context is available; otherwise sets the canvas to
the target dimensions, draws, and resolves with the re-encoded data URL.
No validation of the target dimensions is performed. -/
def resizeImage (env : CanvasEnv) (imageUrl : String) (newWidth newHeight : ℚ) :
    Except String String :=
  if !env.decodes then .error "Failed to load image for resizing."
  else if !env.ctxAvailable then .error "Could not get canvas context"
  else .ok (toDataURL env.payload newWidth newHeight (preservedMime imageUrl))

/-- Source `applyCanvasFilter(imageUrl, filter)`: rejects when the image fails to
load or no 2d context is available; otherwise draws through the CSS filter
on a canvas of the image's natural dimensions and resolves with the
re-encoded data URL. -/
def applyCanvasFilter (env : CanvasEnv) (imageUrl : String) (filter : String) :
    Except String String :=
  if !env.decodes then .error "Failed to load image for applying filter."
  else if !env.ctxAvailable then .error "Could not get canvas context"
  else .ok (toDataURL env.payload env.natural.width env.natural.height (preservedMime imageUrl))

/-! ## Edit request client (`src/services/geminiService.ts`) -/

/-- Outcome of the one `ai.models.generateContent` call, as observed by the
wrapper: either the call throws (with an `Error` message, or a non-`Error`
value), or it returns a response whose candidate parts each optionally
carry `inlineData` (MIME type, base64 data). -/
inductive ApiCallOutcome where
  | success (parts : List (Option (String × String)))
  | failure (message : Option String)
deriving Repr, DecidableEq

/-- The two provenances of an error thrown by `editImageWithGemini`: the
configuration check before the client is built, and the wrapped failure of
the remote call. -/
inductive GeminiError where
  | config (msg : String)
  | remote (msg : String)
deriving Repr, DecidableEq

/-- The `message` carried by the thrown `Error`. -/
def GeminiError.message : GeminiError → String
  | .config m => m
  | .remote m => m

/-- Side-effect trace of one `editImageWithGemini` invocation: whether
`new GoogleGenAI` ran and whether the network call was attempted. -/
structure EditCallTrace where
  clientConstructed : Bool
  networkAttempted : Bool
deriving Repr, DecidableEq

/-- Source `editImageWithGemini(imagePart, prompt)`: reads `process.env.API_KEY`
(`none` = undefined; JS `!apiKey` is also true for `""`) and throws the
configuration error before constructing the client; otherwise performs the
single call, wraps any thrown failure as a remote error, and scans the
response parts for the first `inlineData`, building its data URL, or
returns `null` when none is found. -/
def editImageWithGemini (apiKey : Option String) (imagePart : GenerativePart)
    (prompt : String) (outcome : ApiCallOutcome) :
    Except GeminiError (Option String) × EditCallTrace :=
  if strTruthy apiKey = false then
    (.error (.config "API key is not configured. Please set the API_KEY environment variable."),
     ⟨false, false⟩)
  else
    match outcome with
    | .failure (some msg) =>
        (.error (.remote ("Gemini API Error: " ++ msg)), ⟨true, true⟩)
    | .failure none =>
        (.error (.remote "An unknown error occurred while contacting the Gemini API."),
         ⟨true, true⟩)
    | .success parts =>
        match parts.findSome? id with
        | some (mt, d) => (.ok (some ("data:" ++ mt ++ ";base64," ++ d)), ⟨true, true⟩)
        | none => (.ok none, ⟨true, true⟩)

/-! ## Application controller (the App component) -/

/-- JS `Math.round`: round half toward positive infinity. -/
def jsRound (q : ℚ) : ℤ := ⌊q + 1 / 2⌋

/-- The `mode` field of the resize options. -/
inductive ResizeMode where
  | percentage
  | dimensions
deriving Repr, DecidableEq

/-- The `resizeOptions` state record. -/
structure ResizeOptions where
  mode : ResizeMode
  percentage : ℚ
  width : ℚ
  height : ℚ
  isAspectRatioLocked : Bool
deriving Repr, DecidableEq

/-- Truthiness of `prompt.trim()`: some character of the prompt is not
whitespace. -/
def promptPresent (s : String) : Bool :=
  s.toList.any (fun c => !c.isWhitespace)

/-- Source `handleWidthChange`: the entered width (`e.target.valueAsNumber || 0`,
with `none` standing for `NaN`), and, when the aspect-ratio lock is on and
source dimensions (`completedCrop ?? originalDimensions`) exist, the height
recomputed as `Math.round(newWidth * (sourceDims.height /
sourceDims.width))`. -/
def handleWidthChange (valueAsNumber : Option ℚ) (completedCrop originalDimensions : Option Dims)
    (prev : ResizeOptions) : ResizeOptions :=
  let newWidth : ℚ := valueAsNumber.getD 0
  let sourceDims := match completedCrop with
    | some d => some d
    | none => originalDimensions
  if prev.isAspectRatioLocked then
    match sourceDims with
    | some d =>
        let ratio := d.height / d.width
        { prev with width := newWidth, height := (jsRound (newWidth * ratio) : ℚ) }
    | none => { prev with width := newWidth }
  else { prev with width := newWidth }

/-- The `isResizingNeeded` memo: true when a percentage other than 100 is
selected, or explicit dimensions differ from the source (crop if present,
else original) dimensions. -/
def isResizingNeeded (originalDimensions completedCrop : Option Dims)
    (o : ResizeOptions) : Bool :=
  match originalDimensions with
  | none => false
  | some od =>
    let sourceWidth := (completedCrop.map Dims.width).getD od.width
    let sourceHeight := (completedCrop.map Dims.height).getD od.height
    if o.mode = ResizeMode.percentage ∧ o.percentage ≠ 100 then true
    else if o.mode = ResizeMode.dimensions ∧ (o.width ≠ sourceWidth ∨ o.height ≠ sourceHeight) then
      true
    else false

/-- The target dimensions `processAndSetImage` computes: in percentage mode
the rounded scaled source (crop if present, else original) dimensions, in
dimensions mode the entered width/height. -/
def targetDims (originalDimensions : Dims) (completedCrop : Option Dims)
    (o : ResizeOptions) : ℚ × ℚ :=
  if o.mode = ResizeMode.percentage then
    let scale := o.percentage / 100
    let sourceWidth := (completedCrop.map Dims.width).getD originalDimensions.width
    let sourceHeight := (completedCrop.map Dims.height).getD originalDimensions.height
    ((jsRound (sourceWidth * scale) : ℚ), (jsRound (sourceHeight * scale) : ℚ))
  else (o.width, o.height)

/-- Result of `processAndSetImage`: the value passed to `setEditedImage`,
and whether `resizeImage` was invoked. -/
structure ProcessResult where
  editedImage : String
  resizeCalled : Bool
deriving Repr, DecidableEq

/-- Source `processAndSetImage(imageUrl)`: when resizing is needed and original
dimensions are known, computes the target dimensions and — only when both
are strictly positive — resizes; otherwise (including the non-positive
case) sets the image unresized.  A rejection from `resizeImage` propagates
to the caller. -/
def processAndSetImage (env : CanvasEnv) (originalDimensions completedCrop : Option Dims)
    (o : ResizeOptions) (imageUrl : String) : Except String ProcessResult :=
  match originalDimensions with
  | some od =>
    if isResizingNeeded (some od) completedCrop o then
      let t := targetDims od completedCrop o
      if 0 < t.1 ∧ 0 < t.2 then
        (resizeImage env imageUrl t.1 t.2).map (fun r => ⟨r, true⟩)
      else .ok ⟨imageUrl, false⟩
    else .ok ⟨imageUrl, false⟩
  | none => .ok ⟨imageUrl, false⟩

/-- The body of the adjustment effect (`applyAdjustments`): recomputes the
final image from the edited image and the contrast value, falling back to
the unadjusted image when the filter rejects; the second component records
whether `applyCanvasFilter` was invoked. -/
def applyAdjustments (env : CanvasEnv) (editedImage : Option String) (contrast : ℚ) :
    Option String × Bool :=
  match editedImage with
  | none => (none, false)
  | some img =>
    if contrast ≠ 100 then
      match applyCanvasFilter env img ("contrast(" ++ toString contrast ++ "%)") with
      | .ok adjusted => (some adjusted, true)
      | .error _ => (some img, true)
    else (some img, false)

/-- Source `handleDownload` extension computation:
`mimeType = finalImage.match(/data:([^;]+);/)?.[1] || 'image/png'`, then
`mimeType.split('/')[1] === 'jpeg' ? 'jpg' : mimeType.split('/')[1] ||
'png'`. -/
def downloadExtension (finalImage : String) : String :=
  let mimeType := (classMimeMatch finalImage.toList).getD "image/png"
  let sub := splitSecond '/' mimeType
  if sub = some "jpeg" then "jpg"
  else
    match sub with
    | some s => if s.isEmpty then "png" else s
    | none => "png"

/-- External outcomes one `handleGenerateClick` run can observe: the
FileReader result for the original file (the read data URL, or a read
error), the file's declared type, the environment API key, the remote
call's outcome, and the canvas environment used by a possible resize. -/
structure GenerateEnv where
  fileRead : Except String String
  fileType : String
  apiKey : Option String
  api : ApiCallOutcome
  canvas : CanvasEnv
deriving Repr

/-- The slice of controller state `handleGenerateClick` writes. -/
structure GenState where
  editedImage : Option String
  error : Option String
  isLoading : Bool
deriving Repr, DecidableEq

/-- The try-block of `handleGenerateClick`/`handleEnhanceClick`: build the
image part (from the cropped data URL if truthy, else from the uploaded
file), call `editImageWithGemini`, throw when it returns `null`, then run
`processAndSetImage`; produces the value `setEditedImage` receives, or the
message of the exception reaching the catch. -/
def generateTryBlock (env : GenerateEnv) (originalImage : Bool)
    (croppedImageUrl : Option String) (prompt : String)
    (originalDimensions completedCrop : Option Dims) (o : ResizeOptions) :
    Except String String :=
  let imagePart : Except String GenerativePart :=
    if strTruthy croppedImageUrl then
      dataUrlToGenerativePart (croppedImageUrl.getD "")
    else if originalImage then
      match env.fileRead with
      | .ok dataUrl => fileToGenerativePart dataUrl env.fileType
      | .error e => .error e
    else .error "No image available to process."
  match imagePart with
  | .error e => .error e
  | .ok part =>
    match (editImageWithGemini env.apiKey part prompt env.api).1 with
    | .error ge => .error ge.message
    | .ok none => .error "The API did not return an image. Please try a different prompt."
    | .ok (some editedImageUrl) =>
      match processAndSetImage env.canvas originalDimensions completedCrop o editedImageUrl with
      | .ok pr => .ok pr.editedImage
      | .error e => .error e

/-- Source `handleGenerateClick`: early error when no image or blank prompt;
otherwise set loading, clear error and edited image, run the try-block,
store its result or the caught message (`err.message || 'An unexpected
error occurred.'`), and clear the loading flag in the `finally`. -/
def handleGenerateClick (env : GenerateEnv) (originalImage : Bool)
    (croppedImageUrl : Option String) (prompt : String)
    (originalDimensions completedCrop : Option Dims) (o : ResizeOptions)
    (s : GenState) : GenState :=
  if (!originalImage && !strTruthy croppedImageUrl) || !promptPresent prompt then
    { s with error := some "Please upload an image and enter a prompt." }
  else
    match generateTryBlock env originalImage croppedImageUrl prompt
        originalDimensions completedCrop o with
    | .ok img => { editedImage := some img, error := none, isLoading := false }
    | .error msg =>
        { editedImage := none,
          error := some (if msg.isEmpty then "An unexpected error occurred." else msg),
          isLoading := false }

/-! ## In-flight flags state machine

The generate and enhance buttons are rendered with
`disabled = isLoading || isEnhancing || !originalImage [|| !prompt.trim()]`,
so a start event fires only when both flags are down; each handler's
`finally` clears its own flag whether the awaited work succeeded or
failed. -/

/-- The controller state relevant to the in-flight flags. -/
structure FlagState where
  isLoading : Bool
  isEnhancing : Bool
  originalImage : Bool
  promptOk : Bool
deriving Repr, DecidableEq

/-- One UI-loop transition of the controller:
* `generateStart` — clicking the enabled Generate button
  (`disabled = isLoading || isEnhancing || !originalImage || !prompt.trim()`)
  runs `setIsLoading(true)`;
* `generateFinish` — the awaited generate work settles (success or
  failure); the `finally` runs `setIsLoading(false)`;
* `enhanceStart`/`enhanceFinish` — likewise for Auto Enhance
  (`disabled = isLoading || isEnhancing || !originalImage`) and
  `setIsEnhancing`;
* `setImage`/`setPrompt` — upload and prompt edits, which never touch the
  flags. -/
inductive FlagStep : FlagState → FlagState → Prop where
  | generateStart (s : FlagState)
      (h : s.isLoading = false ∧ s.isEnhancing = false ∧
           s.originalImage = true ∧ s.promptOk = true) :
      FlagStep s { s with isLoading := true }
  | generateFinish (s : FlagState) (success : Bool) (h : s.isLoading = true) :
      FlagStep s { s with isLoading := false }
  | enhanceStart (s : FlagState)
      (h : s.isLoading = false ∧ s.isEnhancing = false ∧ s.originalImage = true) :
      FlagStep s { s with isEnhancing := true }
  | enhanceFinish (s : FlagState) (success : Bool) (h : s.isEnhancing = true) :
      FlagStep s { s with isEnhancing := false }
  | setImage (s : FlagState) (b : Bool) :
      FlagStep s { s with originalImage := b }
  | setPrompt (s : FlagState) (b : Bool) :
      FlagStep s { s with promptOk := b }

/-- States reachable from the initial mount (`useState(false)` for both
flags, no image, empty prompt). -/
inductive FlagReachable : FlagState → Prop where
  | init : FlagReachable ⟨false, false, false, false⟩
  | step {s s' : FlagState} (hs : FlagReachable s) (hstep : FlagStep s s') :
      FlagReachable s'

/-! ## Claim-side predicates -/

/-- The payload has a non-empty comma-separated base64 segment (the spec's
criterion for a parsable data URL). -/
def hasBase64Segment (s : String) : Bool :=
  strTruthy (splitSecond ',' s)

/-- A settled generate invocation, as the spec states it: exactly one of
the edited image and the user-visible error is set — never both, never
neither — and the in-flight flag is cleared. -/
def settledOutcome (r : GenState) : Prop :=
  ((r.editedImage ≠ none ∧ r.error = none) ∨ (r.editedImage = none ∧ r.error ≠ none))
  ∧ r.isLoading = false

/-- The download-extension rule exactly as the spec's claim words it:
MIME `image/jpeg` → `"jpg"`, `image/png` → `"png"`, any other parsable
MIME → its subtype, unknown or missing MIME → `"png"`. -/
def claimedExtension (finalImage : String) : String :=
  match classMimeMatch finalImage.toList with
  | none => "png"
  | some m =>
    if m = "image/jpeg" then "jpg"
    else if m = "image/png" then "png"
    else
      match splitSecond '/' m with
      | some sub => if sub.isEmpty then "png" else sub
      | none => "png"

/-- The amended download-extension rule: any MIME whose subtype is `jpeg`
(not only `image/jpeg`) → `"jpg"`; any other parsable MIME with a
non-empty subtype → that subtype; otherwise `"png"`. -/
def amendedExtension (finalImage : String) : String :=
  match classMimeMatch finalImage.toList with
  | none => "png"
  | some m =>
    match splitSecond '/' m with
    | none => "png"
    | some sub => if sub = "jpeg" then "jpg" else if sub = "" then "png" else sub

/-! ## Theorems for the claims -/

/-- C5: for every input string, `dataUrlToGenerativePart` (and
`fileToGenerativePart` on the read result) fails with a decoding error if
and only if the payload lacks a non-empty comma-separated base64 segment;
otherwise the returned part carries exactly that base64 segment and a MIME
type (`fileToGenerativePart` carries the file's declared type). -/
theorem codec_decode_error_iff (s fileType : String) :
    isErr (dataUrlToGenerativePart s) = !hasBase64Segment s
    ∧ okData (dataUrlToGenerativePart s) =
        (if hasBase64Segment s then splitSecond ',' s else none)
    ∧ isErr (fileToGenerativePart s fileType) = !hasBase64Segment s
    ∧ okData (fileToGenerativePart s fileType) =
        (if hasBase64Segment s then splitSecond ',' s else none)
    ∧ okMime (fileToGenerativePart s fileType) =
        (if hasBase64Segment s then some fileType else none) := by
  cases o : splitSecond ',' s with
  | none =>
      simp [dataUrlToGenerativePart, fileToGenerativePart, isErr, okData, okMime,
        hasBase64Segment, o, strTruthy]
  | some v =>
      by_cases hv : v.isEmpty <;>
        simp [dataUrlToGenerativePart, fileToGenerativePart, isErr, okData, okMime,
          hasBase64Segment, o, strTruthy, hv]

/-- C5 witness: a well-formed data URL converts successfully to its base64
segment, and a comma-free payload is rejected. -/
theorem codec_decode_error_iff_witness :
    isErr (dataUrlToGenerativePart "data:image/png;base64,QUJD") = !hasBase64Segment "data:image/png;base64,QUJD"
    ∧ isErr (fileToGenerativePart "no-comma-here" "image/png") = !hasBase64Segment "no-comma-here" :=
  ⟨(codec_decode_error_iff "data:image/png;base64,QUJD" "image/png").1,
   (codec_decode_error_iff "no-comma-here" "image/png").2.2.1⟩

/-- C2: with the API credential absent, `editImageWithGemini` throws the
configuration error, never a wrapped remote-call failure, and neither the
client construction nor the network call is attempted — for every image
part, prompt and would-be call outcome. -/
theorem missing_api_key_config_error (imagePart : GenerativePart) (prompt : String)
    (outcome : ApiCallOutcome) :
    (editImageWithGemini none imagePart prompt outcome).1 =
      .error (.config "API key is not configured. Please set the API_KEY environment variable.")
    ∧ (∀ m, (editImageWithGemini none imagePart prompt outcome).1 ≠ .error (.remote m))
    ∧ (editImageWithGemini none imagePart prompt outcome).2.clientConstructed = false
    ∧ (editImageWithGemini none imagePart prompt outcome).2.networkAttempted = false := by
  refine ⟨rfl, ?_, rfl, rfl⟩
  intro m h
  simp [editImageWithGemini, strTruthy] at h

/-- C2 witness: the configuration error at a concrete part, prompt and
outcome. -/
theorem missing_api_key_config_error_witness :
    (editImageWithGemini none ⟨"QUJD", "image/png"⟩ "add a hat" (.success [])).1 =
      .error (.config "API key is not configured. Please set the API_KEY environment variable.") :=
  (missing_api_key_config_error ⟨"QUJD", "image/png"⟩ "add a hat" (.success [])).1

/-- C4 counterexample: with a perfectly healthy environment, a resize to
zero dimensions (and a filter over a zero-pixel source) RESOLVES with the
degenerate empty data URL `"data:,"` instead of rejecting, refuting the
claim that every pathological input is rejected with an explicit error. -/
theorem canvas_zero_dims_resolve :
    resizeImage ⟨true, ⟨4, 3⟩, true, "UFg"⟩ "data:image/png;base64,QUE" 0 0 =
      .ok "data:,"
    ∧ applyCanvasFilter ⟨true, ⟨0, 0⟩, true, "UFg"⟩ "data:image/png;base64,QUE"
        "contrast(150%)" = .ok "data:," :=
  ⟨rfl, rfl⟩

/-- C4 (amended): the canvas operations reject exactly when the source
image fails to decode or no 2d drawing context is available; target or
source dimensions are never validated, so zero-dimension inputs resolve
(with an empty result) rather than reject. -/
theorem canvas_ops_reject_iff (env : CanvasEnv) (imageUrl : String) (w h : ℚ)
    (filter : String) :
    isErr (resizeImage env imageUrl w h) = (!env.decodes || !env.ctxAvailable)
    ∧ isErr (applyCanvasFilter env imageUrl filter) = (!env.decodes || !env.ctxAvailable) := by
  cases hd : env.decodes <;> cases hc : env.ctxAvailable <;>
    simp [resizeImage, applyCanvasFilter, isErr, hd, hc]

/-- C7: at contrast 100 the adjustment step is the identity — no canvas
filter call is made and the final image is exactly the edited image
(including the null case). -/
theorem contrast_identity_noop (env : CanvasEnv) (editedImage : Option String) :
    applyAdjustments env editedImage 100 = (editedImage, false) := by
  cases editedImage <;> simp [applyAdjustments]

/-- C9 counterexample: for the data URL `data:application/jpeg;base64,QUE`
the declared MIME is parsable and is neither `image/jpeg` nor `image/png`,
so the claim prescribes its subtype `jpeg` as the extension — but the code
keys only on the subtype and yields `jpg`. -/
theorem download_extension_counterexample :
    downloadExtension "data:application/jpeg;base64,QUE" = "jpg"
    ∧ claimedExtension "data:application/jpeg;base64,QUE" = "jpeg"
    ∧ downloadExtension "data:application/jpeg;base64,QUE" ≠
        claimedExtension "data:application/jpeg;base64,QUE" := by
  refine ⟨rfl, rfl, ?_⟩
  decide

/-- C9 (amended): the download extension is determined by the declared
MIME type thus — any MIME whose subtype is `jpeg` yields `jpg`, any other
parsable MIME with a non-empty subtype yields that subtype (so `image/png`
yields `png`), and an unknown, missing or subtype-less MIME yields
`png`. -/
theorem download_extension_amended (finalImage : String) :
    downloadExtension finalImage = amendedExtension finalImage := by
  unfold downloadExtension amendedExtension
  cases hm : classMimeMatch finalImage.toList with
  | none =>
      simp only [hm, Option.getD_none]
      decide
  | some m =>
      simp only [hm, Option.getD_some]
      cases hs : splitSecond '/' m with
      | none => simp [hs]
      | some sub =>
          by_cases h1 : sub = "jpeg"
          · simp [hs, h1]
          · by_cases h2 : sub = ""
            · subst h2
              simp only [hs, h1, if_false, if_true, if_neg h1]
              decide
            · simp [hs, h1, h2, String.isEmpty_iff]

/-- C6: with the aspect-ratio lock enabled and no crop, entering a new
width `w` computes the height `round(w * originalHeight /
originalWidth)`. -/
theorem aspect_lock_height (w : ℚ) (orig : Dims) (prev : ResizeOptions)
    (hw : 0 < orig.width) (hlock : prev.isAspectRatioLocked = true) :
    (handleWidthChange (some w) none (some orig) prev).height =
      (jsRound (w * orig.height / orig.width) : ℚ) := by
  unfold handleWidthChange
  simp only [hlock, if_true, Option.getD_some]
  rw [mul_div_assoc]

/-- C6 witness: width 50 against a 100×80 source with the lock on gives
height `round(50 · 80 / 100) = 40`. -/
theorem aspect_lock_height_witness :
    (handleWidthChange (some 50) none (some ⟨100, 80⟩)
        ⟨ResizeMode.dimensions, 100, 100, 80, true⟩).height = 40 := by
  rw [aspect_lock_height 50 ⟨100, 80⟩ ⟨ResizeMode.dimensions, 100, 100, 80, true⟩
    (by norm_num) rfl]
  norm_num [jsRound]

/-- C10: when resizing is requested but the computed target width or
height is not strictly positive, `processAndSetImage` stores the image
unresized, never calls `resizeImage`, and surfaces no failure. -/
theorem resize_skip_nonpositive_target (env : CanvasEnv) (od : Dims)
    (completedCrop : Option Dims) (o : ResizeOptions) (imageUrl : String)
    (hneed : isResizingNeeded (some od) completedCrop o = true)
    (hnp : ¬(0 < (targetDims od completedCrop o).1 ∧ 0 < (targetDims od completedCrop o).2)) :
    processAndSetImage env (some od) completedCrop o imageUrl = .ok ⟨imageUrl, false⟩ := by
  unfold processAndSetImage
  simp [hneed, hnp]

/-- C10 witness: a width field set to 0 in dimensions mode requests a
resize whose target width is 0; the image is stored unresized with no
error and no resize call. -/
theorem resize_skip_nonpositive_target_witness :
    processAndSetImage ⟨true, ⟨1, 1⟩, true, "UFg"⟩ (some ⟨100, 100⟩) none
      ⟨ResizeMode.dimensions, 100, 0, 50, true⟩ "data:image/png;base64,QUE" =
      .ok ⟨"data:image/png;base64,QUE", false⟩ :=
  resize_skip_nonpositive_target ⟨true, ⟨1, 1⟩, true, "UFg"⟩ ⟨100, 100⟩ none
    ⟨ResizeMode.dimensions, 100, 0, 50, true⟩ "data:image/png;base64,QUE"
    (by decide) (by decide)

/-- C1: with a present image and a non-blank prompt, one `handleGenerateClick`
run — whatever the file read, the credential, the remote call and the
canvas do — ends with exactly one of a non-null edited image or a non-null
error message, never both and never neither, and the loading flag
cleared. -/
theorem generate_exactly_one (env : GenerateEnv) (originalImage : Bool)
    (croppedImageUrl : Option String) (prompt : String)
    (originalDimensions completedCrop : Option Dims) (o : ResizeOptions) (s : GenState)
    (himg : originalImage = true ∨ strTruthy croppedImageUrl = true)
    (hp : promptPresent prompt = true) :
    settledOutcome (handleGenerateClick env originalImage croppedImageUrl prompt
      originalDimensions completedCrop o s) := by
  have hguard : ((!originalImage && !strTruthy croppedImageUrl) || !promptPresent prompt)
      = false := by
    rcases himg with h | h <;> simp [h, hp]
  unfold handleGenerateClick
  rw [hguard]
  simp only [Bool.false_eq_true, if_false]
  cases htry : generateTryBlock env originalImage croppedImageUrl prompt
      originalDimensions completedCrop o with
  | ok img => exact ⟨Or.inl ⟨by simp, rfl⟩, rfl⟩
  | error msg => exact ⟨Or.inr ⟨rfl, by simp⟩, rfl⟩

/-- C1 witness: a cropped image and the prompt "make it pop", with a
healthy key and a remote call returning one inline image, settle in
exactly-one fashion with the loading flag down. -/
theorem generate_exactly_one_witness :
    settledOutcome (handleGenerateClick
      ⟨.ok "data:image/png;base64,QUJD", "image/png", some "test-key",
        .success [some ("image/png", "WFla")], ⟨true, ⟨1, 1⟩, true, "UFg"⟩⟩
      false (some "data:image/png;base64,QUJD") "make it pop" none none
      ⟨ResizeMode.percentage, 100, 0, 0, true⟩ ⟨none, none, false⟩) :=
  generate_exactly_one
    ⟨.ok "data:image/png;base64,QUJD", "image/png", some "test-key",
      .success [some ("image/png", "WFla")], ⟨true, ⟨1, 1⟩, true, "UFg"⟩⟩
    false (some "data:image/png;base64,QUJD") "make it pop" none none
    ⟨ResizeMode.percentage, 100, 0, 0, true⟩ ⟨none, none, false⟩
    (Or.inr rfl) (by decide)

/-- Auxiliary invariant of the controller's flag machine: in every
reachable state at least one of the two in-flight flags is down. -/
theorem flags_invariant_aux (s : FlagState) (h : FlagReachable s) :
    s.isLoading = false ∨ s.isEnhancing = false := by
  induction h with
  | init => exact Or.inl rfl
  | step hs hstep ih =>
      cases hstep with
      | generateStart ht => exact Or.inr ht.2.1
      | generateFinish b ht => exact Or.inl rfl
      | enhanceStart ht => exact Or.inl ht.1
      | enhanceFinish b ht => exact Or.inr rfl
      | setImage b => exact ih
      | setPrompt b => exact ih

/-- C3: in every reachable controller state at most one of the two
in-flight flags (`isLoading`, `isEnhancing`) is true, and whenever an
operation is in flight the machine can return to idle — clearing exactly
that flag — on success as on failure. -/
theorem flags_exclusive_and_cleared (s : FlagState) (h : FlagReachable s) :
    ¬(s.isLoading = true ∧ s.isEnhancing = true)
    ∧ (∀ success : Bool, s.isLoading = true →
        FlagStep s { s with isLoading := false })
    ∧ (∀ success : Bool, s.isEnhancing = true →
        FlagStep s { s with isEnhancing := false }) := by
  refine ⟨?_, fun b hl => .generateFinish s b hl, fun b he => .enhanceFinish s b he⟩
  rcases flags_invariant_aux s h with hl | he
  · rintro ⟨h1, _⟩
    rw [hl] at h1
    exact Bool.noConfusion h1
  · rintro ⟨_, h2⟩
    rw [he] at h2
    exact Bool.noConfusion h2

/-- C3 witness: the generating state reached by upload → prompt → Generate
has only the loading flag up, and its finish transitions (either success
value) clear it. -/
theorem flags_exclusive_and_cleared_witness :
    ¬((⟨true, false, true, true⟩ : FlagState).isLoading = true
      ∧ (⟨true, false, true, true⟩ : FlagState).isEnhancing = true)
    ∧ (∀ success : Bool, (⟨true, false, true, true⟩ : FlagState).isLoading = true →
        FlagStep ⟨true, false, true, true⟩ ⟨false, false, true, true⟩)
    ∧ (∀ success : Bool, (⟨true, false, true, true⟩ : FlagState).isEnhancing = true →
        FlagStep ⟨true, false, true, true⟩ ⟨true, false, true, true⟩) := by
  have h0 : FlagReachable ⟨false, false, false, false⟩ := .init
  have h1 : FlagReachable ⟨false, false, true, false⟩ := .step h0 (.setImage _ true)
  have h2 : FlagReachable ⟨false, false, true, true⟩ := .step h1 (.setPrompt _ true)
  have h3 : FlagReachable ⟨true, false, true, true⟩ :=
    .step h2 (.generateStart _ ⟨rfl, rfl, rfl, rfl⟩)
  exact flags_exclusive_and_cleared _ h3

end ImageEdit
